import Mathlib

/-!
Shallow embedding of the terraform-provider-azurex repository.

The repository has three source files:
  * the provider (`AzurexProvider.Configure` and friends),
  * the `subscription_tags` resource lifecycle
    (`Create` / `Read` / `Update` / `Delete` / `ImportState` / `applyTags`),
  * the hand-written Cost Management settings client
    (`GetTagInheritance` / `EnableTagInheritance` / `DisableTagInheritance`).

External collaborators (the Azure SDK pipeline, the Tags Resource Manager
client, the azidentity credential constructors, the filesystem) are modelled
as explicit oracle parameters: functions passed in that may succeed or fail,
so every theorem quantifies over every possible behaviour of the
environment.  Machine state the Go code reads (environment variables, files)
is passed as explicit data.
-/

namespace Azurex

/-! ### Provider configuration (provider.go) -/

/-- The environment variables read by `AzurexProvider.Configure`. -/
structure Env where
  armSubscriptionID : String
  armTenantID : String
  armClientID : String
  armClientSecret : String
  armClientCertificateFile : String
  azureFederatedTokenFile : String
  azureClientID : String
deriving DecidableEq, Repr

/-- `AzurexProviderModel`: the four provider schema attributes
(`subscription_id`, `tenant_id`, `client_id`, `client_secret`). -/
structure AzurexProviderModel where
  subscriptionID : String
  tenantID : String
  clientID : String
  clientSecret : String
deriving DecidableEq, Repr

/-- A token credential produced by one of the three azidentity constructors
called in `Configure`, recording the constructor and the arguments the Go
code passes to it. -/
inductive TokenCredential where
  | clientSecret (tenantID clientID clientSecret : String)
  | clientCertificate (tenantID clientID certData : String)
  | workloadIdentity (tenantID clientID tokenFilePath : String)
deriving DecidableEq, Repr

/-- The `auth.Credentials` record `Configure` builds and hands to
`auth.NewAuthorizerFromCredentials` (only the fields the code sets). -/
structure Credentials where
  tenantID : String
  clientID : String
  enableClientSecret : Bool
  clientSecret : String
  enableClientCertificate : Bool
  clientCertificatePath : String
  enableOIDC : Bool
  oidcAssertionToken : String
deriving DecidableEq, Repr

/-- Success/failure oracles for the external azidentity constructors
(`NewClientSecretCredential`, `ParseCertificates`,
`NewClientCertificateCredential`, `NewWorkloadIdentityCredential`).
Each may fail for reasons opaque to this repository. -/
structure AzIdentity where
  newClientSecretCredentialOk : String → String → String → Bool
  parseCertificatesOk : String → Bool
  newClientCertificateCredentialOk : String → String → String → Bool
  newWorkloadIdentityCredentialOk : String → String → String → Bool

/-- The part of `AzurexContext` that `Configure` fills in and that the
resource later consumes: the subscription ID and the azidentity credential
(`IdentityCreds`), which is left unset when no auth branch was taken. -/
structure AzurexContext where
  subscriptionID : String
  identityCreds : Option TokenCredential
deriving DecidableEq, Repr

/-- Modelled from the spec: `auth.NewAuthorizerFromCredentials` is external
library code (hashicorp/go-azure-sdk), not part of this repository.  Per the
spec the credential resolver "Produces a token-credential object or fails
with a configuration error if required material (e.g., unreadable
certificate file) is missing/invalid": the authorizer construction succeeds
exactly when some enabled authentication method has its required material
present.  `Configure` calls it twice (Microsoft Graph and Resource Manager)
with the same `Credentials` value; since success depends only on that value,
the two calls are collapsed into one check. -/
def authorizerFromCredentials (c : Credentials) : Bool :=
  (c.enableClientSecret && c.clientSecret != "") ||
  (c.enableClientCertificate && c.clientCertificatePath != "") ||
  (c.enableOIDC && c.oidcAssertionToken != "")

/-- The tail of `Configure` (lines 203-222): build the two authorizers from
the final `Credentials`, failing with a diagnostic if that fails, otherwise
publish the provider context.  The built `Credentials` value is returned
alongside the context so theorems can observe which values were used. -/
def configureFinish (subscriptionID : String) (credentials : Credentials)
    (creds : Option TokenCredential) :
    Except String (AzurexContext × Credentials) :=
  if authorizerFromCredentials credentials then
    Except.ok ({ subscriptionID := subscriptionID, identityCreds := creds }, credentials)
  else
    Except.error "unable to configure credential"

/-- The env-var overrides applied to the decoded provider model
(`Configure`, lines 122-127): `ARM_SUBSCRIPTION_ID` and `ARM_TENANT_ID`
replace the configured values when non-empty.  No other attribute of the
model is touched (or, indeed, ever read again). -/
def resolveProviderModel (env : Env) (cfg : AzurexProviderModel) : AzurexProviderModel :=
  { cfg with
    subscriptionID :=
      if env.armSubscriptionID != "" then env.armSubscriptionID else cfg.subscriptionID
    tenantID :=
      if env.armTenantID != "" then env.armTenantID else cfg.tenantID }

/-- The `auth.Credentials` literal built at lines 139-145: tenant from the
resolved model, client ID always from `ARM_CLIENT_ID`, client-secret
authentication pre-enabled with an empty secret. -/
def initialCredentials (env : Env) (data : AzurexProviderModel) : Credentials :=
  { tenantID := data.tenantID
    clientID := env.armClientID
    enableClientSecret := true
    clientSecret := ""
    enableClientCertificate := false
    clientCertificatePath := ""
    enableOIDC := false
    oidcAssertionToken := "" }

/-- `AzurexProvider.Configure` (provider.go lines 110-222).
`fs` models `os.ReadFile` (`none` = read error); `az` models the azidentity
constructors.  Mirrors the source: env overrides for `ARM_SUBSCRIPTION_ID` /
`ARM_TENANT_ID` only; `credentials.ClientID` always `os.Getenv("ARM_CLIENT_ID")`;
then the three-way `if` / `else if` chain on `ARM_CLIENT_SECRET`,
`ARM_CLIENT_CERTIFICATE_FILE`, `AZURE_FEDERATED_TOKEN_FILE`. -/
def Configure (env : Env) (cfg : AzurexProviderModel)
    (fs : String → Option String) (az : AzIdentity) :
    Except String (AzurexContext × Credentials) :=
  let data := resolveProviderModel env cfg
  let credentials := initialCredentials env data
  if env.armClientSecret != "" then
    let credentials := { credentials with
      enableClientSecret := true, clientSecret := env.armClientSecret }
    if az.newClientSecretCredentialOk data.tenantID env.armClientID env.armClientSecret then
      configureFinish data.subscriptionID credentials
        (some (.clientSecret data.tenantID env.armClientID env.armClientSecret))
    else Except.error "unable to configure credential"
  else if env.armClientCertificateFile != "" then
    let credentials := { credentials with
      enableClientCertificate := true
      clientCertificatePath := env.armClientCertificateFile }
    match fs env.armClientCertificateFile with
    | none => Except.error "unable to configure credential"
    | some certData =>
      if az.parseCertificatesOk certData then
        if az.newClientCertificateCredentialOk data.tenantID env.armClientID certData then
          configureFinish data.subscriptionID credentials
            (some (.clientCertificate data.tenantID env.armClientID certData))
        else Except.error "unable to configure credential"
      else Except.error "unable to configure credential"
  else if env.azureFederatedTokenFile != "" then
    match fs env.azureFederatedTokenFile with
    | none => Except.error "unable to configure credential"
    | some token =>
      let credentials := { credentials with
        enableOIDC := true, oidcAssertionToken := token }
      if az.newWorkloadIdentityCredentialOk data.tenantID env.azureClientID
          env.azureFederatedTokenFile then
        configureFinish data.subscriptionID credentials
          (some (.workloadIdentity data.tenantID env.azureClientID env.azureFederatedTokenFile))
      else Except.error "unable to configure credential"
  else
    configureFinish data.subscriptionID credentials none

/-! ### Cost Management settings client (internal/azure/subscriptions/subscriptions.go) -/

/-- `TagInheritanceProperties`: JSON body fragment with the one boolean. -/
structure TagInheritanceProperties where
  preferContainerTags : Bool
deriving DecidableEq, Repr

/-- `TagInheritanceRequest`: the PUT body
`{"kind":"taginheritance","properties":{"preferContainerTags":<bool>}}`. -/
structure TagInheritanceRequest where
  kind : String
  properties : TagInheritanceProperties
deriving DecidableEq, Repr

/-- `TagInheritanceResponse`: the deserialized settings document. -/
structure TagInheritanceResponse where
  id : String
  name : String
  type : String
  scope : String
  properties : TagInheritanceProperties
deriving DecidableEq, Repr

/-- The observable parts of a `policy.Request` that `getTagInheritanceRequest`
and `createTagInheritanceRequest` build: HTTP method, joined URL, query
parameters, Accept header and (for PUT) the marshalled JSON body. -/
structure HttpRequest where
  method : String
  url : String
  query : List (String × String)
  headerAccept : List String
  body : Option TagInheritanceRequest
deriving DecidableEq, Repr

/-- An HTTP response as seen by `handleTagInheritanceResponse`: the result of
`runtime.UnmarshalAsJSON` into a `TagInheritanceResponse` (`none` models a
deserialization failure). -/
structure HttpResponse where
  parsed : Option TagInheritanceResponse
deriving DecidableEq, Repr

/-- The transport: `client.internal.Pipeline().Do(req)`, an external oracle
that either fails or returns a response. -/
def Pipeline : Type := HttpRequest → Except String HttpResponse

/-- The fixed settings URL path shared by the GET and PUT requests. -/
def settingsUrlPath : String := "/providers/Microsoft.CostManagement/settings/taginheritance"

/-- `getTagInheritanceRequest` (lines 99-110): GET on the settings path with
`api-version=2022-10-01-preview` and an `application/json` Accept header. -/
def getTagInheritanceRequest (endpoint : String) : HttpRequest :=
  { method := "GET"
    url := endpoint ++ settingsUrlPath
    query := [("api-version", "2022-10-01-preview")]
    headerAccept := ["application/json"]
    body := none }

/-- `createTagInheritanceRequest` (lines 114-131): PUT on the settings path
with `api-version=2022-10-01-preview` and the fixed JSON body. -/
def createTagInheritanceRequest (endpoint : String) (preferContainerTags : Bool) : HttpRequest :=
  { method := "PUT"
    url := endpoint ++ settingsUrlPath
    query := [("api-version", "2022-10-01-preview")]
    headerAccept := ["application/json"]
    body := some { kind := "taginheritance"
                   properties := { preferContainerTags := preferContainerTags } } }

/-- `handleTagInheritanceResponse` (lines 133-140): unmarshal or fail. -/
def handleTagInheritanceResponse (resp : HttpResponse) : Except String TagInheritanceResponse :=
  match resp.parsed with
  | none => Except.error "unmarshal error"
  | some t => Except.ok t

/-- `SettingsClient.GetTagInheritance` (lines 57-69). -/
def GetTagInheritance (endpoint : String) (pipeline : Pipeline) :
    Except String TagInheritanceResponse :=
  match pipeline (getTagInheritanceRequest endpoint) with
  | Except.error e => Except.error e
  | Except.ok resp => handleTagInheritanceResponse resp

/-- `SettingsClient.EnableTagInheritance` (lines 71-83). -/
def EnableTagInheritance (endpoint : String) (pipeline : Pipeline)
    (preferContainerTags : Bool) : Except String TagInheritanceResponse :=
  match pipeline (createTagInheritanceRequest endpoint preferContainerTags) with
  | Except.error e => Except.error e
  | Except.ok resp => handleTagInheritanceResponse resp

/-- `SettingsClient.DisableTagInheritance` (lines 85-97): builds the PUT
request with `preferContainerTags = false` and handles the response. -/
def DisableTagInheritance (endpoint : String) (pipeline : Pipeline) :
    Except String TagInheritanceResponse :=
  match pipeline (createTagInheritanceRequest endpoint false) with
  | Except.error e => Except.error e
  | Except.ok resp => handleTagInheritanceResponse resp

/-! ### Subscription-tags resource (subscription_tags_resource.go) -/

/-- `SubscriptionTagsResourceModel`: the five schema attributes.  Tags are an
association list standing for the Go `map[string]string` (keys unique).  The
last field keeps the source's (misspelled) Go name `RemoteInheritTags`,
which is wired to `ondelete_remove_inherit_tags`. -/
structure SubscriptionTagsResourceModel where
  tags : List (String × String)
  inheritTags : Bool
  preferContainers : Bool
  removeTags : Bool
  remoteInheritTags : Bool
deriving DecidableEq, Repr

/-- `armresources.Tags`: the nullable tag map of a tags response, values
being nullable strings (`map[string]*string`). -/
structure TagsProperties where
  tags : Option (List (String × Option String))
deriving DecidableEq, Repr

/-- `armresources.TagsResource` as returned by `TagsClient.GetAtScope`:
`Properties` itself is nullable. -/
structure TagsResponse where
  properties : Option TagsProperties
deriving DecidableEq, Repr

/-- One Azure API call issued by the resource, as recorded in call traces. -/
inductive ApiCall where
  | createOrUpdateAtScope (scope : String) (tags : List (String × String))
  | getAtScope (scope : String)
  | getTagInheritance
  | enableTagInheritance (preferContainerTags : Bool)
  | disableTagInheritance
deriving DecidableEq, Repr

/-- Whether a call touches the tag-inheritance setting. -/
def ApiCall.isInheritanceCall : ApiCall → Bool
  | .getTagInheritance => true
  | .enableTagInheritance _ => true
  | .disableTagInheritance => true
  | _ => false

/-- Whether a call modifies subscription tags. -/
def ApiCall.isTagModifying : ApiCall → Bool
  | .createOrUpdateAtScope _ _ => true
  | _ => false

/-- The external clients the resource holds: the Tags Resource Manager
client's two operations (oracles) and the settings client's transport. -/
structure Clients where
  getAtScope : String → Except String TagsResponse
  createOrUpdateAtScope : String → List (String × String) → Except String Unit
  pipeline : Pipeline

namespace SubscriptionTagsResource

/-- The scope string `fmt.Sprintf("/subscriptions/%s", subscriptionID)`. -/
def scopeOf (subscriptionID : String) : String := "/subscriptions/" ++ subscriptionID

/-- `applyTags` (lines 538-558): re-wrap the map as nullable values and call
`CreateOrUpdateAtScope` with exactly the given map at the subscription
scope.  Returns the call made and the (wrapped) error. -/
def applyTags (clients : Clients) (subscriptionID : String)
    (tagMap : List (String × String)) : ApiCall × Except String Unit :=
  let scope := scopeOf subscriptionID
  (ApiCall.createOrUpdateAtScope scope tagMap,
   match clients.createOrUpdateAtScope scope tagMap with
   | Except.error e => Except.error ("failed to set tags for subscription: " ++ e)
   | Except.ok _ => Except.ok ())

/-- The tag conversion loop in `Read` (lines 426-433): keep exactly the
entries whose value pointer is non-nil, dereferenced. -/
def convertAzureTags (ts : List (String × Option String)) : List (String × String) :=
  ts.filterMap (fun kv => kv.2.map (fun v => (kv.1, v)))

/-- `Read`'s guarded extraction of the response tags (the
`tagsResponse.Properties != nil && tagsResponse.Properties.Tags != nil`
check wrapped around the conversion loop). -/
def tfTagsOfResponse (r : TagsResponse) : List (String × String) :=
  match r.properties with
  | none => []
  | some props =>
    match props.tags with
    | none => []
    | some ts => convertAzureTags ts

/-- `Create` (lines 368-405): apply the planned tags, then, when the plan
has `inherit_tags`, enable inheritance and copy the server-reported values
into state only when the response carries a non-empty id.  Returns the call
trace and the state that would be recorded (or the first error). -/
def Create (subscriptionID endpoint : String) (clients : Clients)
    (data : SubscriptionTagsResourceModel) :
    List ApiCall × Except String SubscriptionTagsResourceModel :=
  let (applyCall, applyResult) := applyTags clients subscriptionID data.tags
  match applyResult with
  | Except.error e => ([applyCall], Except.error ("Error applying tags to subscription: " ++ e))
  | Except.ok _ =>
    if data.inheritTags then
      match EnableTagInheritance endpoint clients.pipeline data.preferContainers with
      | Except.error e =>
        ([applyCall, ApiCall.enableTagInheritance data.preferContainers],
         Except.error ("Error configuring tag inheritance: " ++ e))
      | Except.ok tagInheritance =>
        let d :=
          if tagInheritance.id != "" then
            { data with inheritTags := true
                        preferContainers := tagInheritance.properties.preferContainerTags }
          else data
        ([applyCall, ApiCall.enableTagInheritance data.preferContainers], Except.ok d)
    else ([applyCall], Except.ok data)

/-- `Read` (lines 407-456): fetch tags at the subscription scope, convert
them, then fetch the inheritance setting; a non-empty response id means
inheritance is on (copy the server's preference), an empty id means off
(leaving `prefer_containers` as it was in the prior state). -/
def Read (subscriptionID endpoint : String) (clients : Clients)
    (data : SubscriptionTagsResourceModel) :
    List ApiCall × Except String SubscriptionTagsResourceModel :=
  let scope := scopeOf subscriptionID
  match clients.getAtScope scope with
  | Except.error e =>
    ([ApiCall.getAtScope scope], Except.error ("Error reading subscription tags: " ++ e))
  | Except.ok tagsResponse =>
    let data1 := { data with tags := tfTagsOfResponse tagsResponse }
    match GetTagInheritance endpoint clients.pipeline with
    | Except.error e =>
      ([ApiCall.getAtScope scope, ApiCall.getTagInheritance],
       Except.error ("Error getting tag inheritance settings: " ++ e))
    | Except.ok tagInheritance =>
      let d :=
        if tagInheritance.id != "" then
          { data1 with inheritTags := true
                       preferContainers := tagInheritance.properties.preferContainerTags }
        else { data1 with inheritTags := false }
      ([ApiCall.getAtScope scope, ApiCall.getTagInheritance], Except.ok d)

/-- `Update` (lines 458-504): re-apply the planned tags; then if the plan
wants inheritance on, enable it (copying server values only on a non-empty
response id); else if the prior state had it on and the plan turns it off,
disable it; otherwise make no inheritance call. -/
def Update (subscriptionID endpoint : String) (clients : Clients)
    (data oldData : SubscriptionTagsResourceModel) :
    List ApiCall × Except String SubscriptionTagsResourceModel :=
  let (applyCall, applyResult) := applyTags clients subscriptionID data.tags
  match applyResult with
  | Except.error e => ([applyCall], Except.error ("Error updating subscription tags: " ++ e))
  | Except.ok _ =>
    if data.inheritTags then
      match EnableTagInheritance endpoint clients.pipeline data.preferContainers with
      | Except.error e =>
        ([applyCall, ApiCall.enableTagInheritance data.preferContainers],
         Except.error ("Error updating tag inheritance settings: " ++ e))
      | Except.ok tagInheritance =>
        let d :=
          if tagInheritance.id != "" then
            { data with inheritTags := true
                        preferContainers := tagInheritance.properties.preferContainerTags }
          else data
        ([applyCall, ApiCall.enableTagInheritance data.preferContainers], Except.ok d)
    else if oldData.inheritTags && !data.inheritTags then
      match DisableTagInheritance endpoint clients.pipeline with
      | Except.error e =>
        ([applyCall, ApiCall.disableTagInheritance],
         Except.error ("Error disabling tag inheritance: " ++ e))
      | Except.ok _ =>
        ([applyCall, ApiCall.disableTagInheritance],
         Except.ok { data with inheritTags := false })
    else ([applyCall], Except.ok data)

/-- The second half of `Delete` (lines 525-531): disable inheritance iff
both `ondelete_remove_inherit_tags` and the state's `inherit_tags` hold. -/
def deleteInheritanceStep (endpoint : String) (clients : Clients)
    (data : SubscriptionTagsResourceModel) : List ApiCall × Except String Unit :=
  if data.remoteInheritTags && data.inheritTags then
    match DisableTagInheritance endpoint clients.pipeline with
    | Except.error e =>
      ([ApiCall.disableTagInheritance], Except.error ("Error disabling tag inheritance: " ++ e))
    | Except.ok _ => ([ApiCall.disableTagInheritance], Except.ok ())
  else ([], Except.ok ())

/-- `Delete` (lines 506-532): when `ondelete_remove_tags`, apply the empty
tag map (clearing all tags); then conditionally disable inheritance. -/
def Delete (subscriptionID endpoint : String) (clients : Clients)
    (data : SubscriptionTagsResourceModel) : List ApiCall × Except String Unit :=
  if data.removeTags then
    let (applyCall, applyResult) := applyTags clients subscriptionID []
    match applyResult with
    | Except.error e => ([applyCall], Except.error ("Error removing subscription tags: " ++ e))
    | Except.ok _ =>
      let (calls, res) := deleteInheritanceStep endpoint clients data
      (applyCall :: calls, res)
  else deleteInheritanceStep endpoint clients data

end SubscriptionTagsResource

/-- The attribute names declared by the `subscription_tags` resource schema
(`Schema`, lines 299-331). -/
def subscriptionTagsSchemaAttributes : List String :=
  ["tags", "inherit_tags", "prefer_containers", "ondelete_remove_tags",
   "ondelete_remove_inherit_tags"]

/-- The attribute path `ImportState` (lines 534-536) passes to
`resource.ImportStatePassthroughID`: `path.Root("subscription_id")`.  The
framework writes the supplied import identifier to this attribute, erroring
when the schema does not declare it. -/
def importStateAttributePath : String := "subscription_id"

/-! ### Concrete sample inputs used by witnesses and counterexamples -/

/-- A filesystem on which every read fails. -/
def fsNone : String → Option String := fun _ => none

/-- azidentity oracles on which every constructor succeeds. -/
def azAllOk : AzIdentity :=
  { newClientSecretCredentialOk := fun _ _ _ => true
    parseCertificatesOk := fun _ => true
    newClientCertificateCredentialOk := fun _ _ _ => true
    newWorkloadIdentityCredentialOk := fun _ _ _ => true }

/-- An environment with only `ARM_CLIENT_SECRET` set, and `ARM_CLIENT_ID`
left empty. -/
def envC1 : Env :=
  { armSubscriptionID := ""
    armTenantID := ""
    armClientID := ""
    armClientSecret := "env-secret"
    armClientCertificateFile := ""
    azureFederatedTokenFile := ""
    azureClientID := "" }

/-- A provider configuration declaring all four attributes. -/
def cfgC1 : AzurexProviderModel :=
  { subscriptionID := "1b75aa77-e080-4f83-b893-564dc9df7de5"
    tenantID := "tenant-cfg"
    clientID := "configured-client-id"
    clientSecret := "configured-secret" }

/-- The value `Configure envC1 cfgC1 fsNone azAllOk` computes to. -/
def rC1 : AzurexContext × Credentials :=
  ({ subscriptionID := "1b75aa77-e080-4f83-b893-564dc9df7de5"
     identityCreds := some (.clientSecret "tenant-cfg" "" "env-secret") },
   { tenantID := "tenant-cfg"
     clientID := ""
     enableClientSecret := true
     clientSecret := "env-secret"
     enableClientCertificate := false
     clientCertificatePath := ""
     enableOIDC := false
     oidcAssertionToken := "" })

/-- An environment with none of the authentication variables set. -/
def envEmpty : Env :=
  { armSubscriptionID := ""
    armTenantID := ""
    armClientID := ""
    armClientSecret := ""
    armClientCertificateFile := ""
    azureFederatedTokenFile := ""
    azureClientID := "" }

/-- An environment selecting the client-certificate branch. -/
def envCert : Env := { envEmpty with armClientCertificateFile := "/certs/client.pem" }

/-- A settings response with a non-empty identifier (inheritance enabled). -/
def sampleInh : TagInheritanceResponse :=
  { id := "/subscriptions/abc/providers/Microsoft.CostManagement/settings/taginheritance"
    name := "taginheritance"
    type := "Microsoft.CostManagement/Settings"
    scope := "Subscription"
    properties := { preferContainerTags := false } }

/-- A settings response with an empty identifier (inheritance unset). -/
def emptyIdInh : TagInheritanceResponse :=
  { id := "", name := "", type := "", scope := ""
    properties := { preferContainerTags := false } }

/-- Clients on which every call succeeds and the settings endpoint reports
inheritance enabled. -/
def sampleClients : Clients :=
  { getAtScope := fun _ =>
      Except.ok { properties := some { tags := some [("tag1", some "value1"), ("tag2", none)] } }
    createOrUpdateAtScope := fun _ _ => Except.ok ()
    pipeline := fun _ => Except.ok { parsed := some sampleInh } }

/-- Clients on which every call succeeds and the settings endpoint answers
with an empty identifier. -/
def emptyIdClients : Clients :=
  { getAtScope := fun _ => Except.ok { properties := none }
    createOrUpdateAtScope := fun _ _ => Except.ok ()
    pipeline := fun _ => Except.ok { parsed := some emptyIdInh } }

/-- A prior state with inheritance on. -/
def stateOn : SubscriptionTagsResourceModel :=
  { tags := [("tag1", "value1")]
    inheritTags := true
    preferContainers := true
    removeTags := true
    remoteInheritTags := true }

/-- A desired state with inheritance off. -/
def stateOff : SubscriptionTagsResourceModel :=
  { tags := [("tag1", "value1")]
    inheritTags := false
    preferContainers := true
    removeTags := false
    remoteInheritTags := false }

/-- What claim C1 asserts of `Configure` at one input: each of the four
provider attributes takes its configured value unless the matching `ARM_*`
variable is non-empty, in which case the environment value is used. -/
def claimC1Property (env : Env) (cfg : AzurexProviderModel)
    (fs : String → Option String) (az : AzIdentity) : Prop :=
  ∀ r, Configure env cfg fs az = Except.ok r →
    r.1.subscriptionID =
      (if env.armSubscriptionID != "" then env.armSubscriptionID else cfg.subscriptionID) ∧
    r.2.tenantID = (if env.armTenantID != "" then env.armTenantID else cfg.tenantID) ∧
    r.2.clientID = (if env.armClientID != "" then env.armClientID else cfg.clientID) ∧
    r.2.clientSecret =
      (if env.armClientSecret != "" then env.armClientSecret else cfg.clientSecret)

/-! ### Helper lemmas -/

theorem configureFinish_ok {s : String} {c : Credentials} {o : Option TokenCredential}
    {r : AzurexContext × Credentials} (h : configureFinish s c o = Except.ok r) :
    r = ({ subscriptionID := s, identityCreds := o }, c) := by
  unfold configureFinish at h
  split at h
  · injection h with h2
    exact h2.symm
  · exact Except.noConfusion h

/-- Full characterization of the successful outcomes of `Configure`. -/
theorem Configure_ok_spec (env : Env) (cfg : AzurexProviderModel)
    (fs : String → Option String) (az : AzIdentity) (r : AzurexContext × Credentials)
    (h : Configure env cfg fs az = Except.ok r) :
    r.1.subscriptionID = (resolveProviderModel env cfg).subscriptionID ∧
    r.2.tenantID = (resolveProviderModel env cfg).tenantID ∧
    r.2.clientID = env.armClientID ∧
    r.2.clientSecret = (if env.armClientSecret != "" then env.armClientSecret else "") ∧
    ((env.armClientSecret ≠ "" ∧
        r.1.identityCreds = some (TokenCredential.clientSecret
          (resolveProviderModel env cfg).tenantID env.armClientID env.armClientSecret)) ∨
     (env.armClientSecret = "" ∧ env.armClientCertificateFile ≠ "" ∧
        ∃ certData, fs env.armClientCertificateFile = some certData ∧
          r.1.identityCreds = some (TokenCredential.clientCertificate
            (resolveProviderModel env cfg).tenantID env.armClientID certData)) ∨
     (env.armClientSecret = "" ∧ env.armClientCertificateFile = "" ∧
        env.azureFederatedTokenFile ≠ "" ∧
        r.1.identityCreds = some (TokenCredential.workloadIdentity
          (resolveProviderModel env cfg).tenantID env.azureClientID
          env.azureFederatedTokenFile))) := by
  simp only [Configure] at h
  split at h
  · rename_i hs
    split at h
    · have hr := configureFinish_ok h
      subst hr
      refine ⟨rfl, rfl, rfl, by simp [initialCredentials, hs], Or.inl ⟨by simpa using hs, rfl⟩⟩
    · exact Except.noConfusion h
  · rename_i hs
    split at h
    · rename_i hc
      split at h
      · exact Except.noConfusion h
      · rename_i certData hfs
        split at h
        · split at h
          · have hr := configureFinish_ok h
            subst hr
            refine ⟨rfl, rfl, rfl, by simp [initialCredentials, hs],
              Or.inr (Or.inl ⟨by simpa using hs, by simpa using hc, certData, hfs, rfl⟩)⟩
          · exact Except.noConfusion h
        · exact Except.noConfusion h
    · rename_i hc
      split at h
      · rename_i ht
        split at h
        · exact Except.noConfusion h
        · rename_i token hfs
          split at h
          · have hr := configureFinish_ok h
            subst hr
            refine ⟨rfl, rfl, rfl, by simp [initialCredentials, hs],
              Or.inr (Or.inr ⟨by simpa using hs, by simpa using hc, by simpa using ht, rfl⟩)⟩
          · exact Except.noConfusion h
      · rename_i ht
        have : configureFinish (resolveProviderModel env cfg).subscriptionID
            (initialCredentials env (resolveProviderModel env cfg)) none =
            Except.error "unable to configure credential" := rfl
        rw [this] at h
        exact Except.noConfusion h

/-- With no authentication material in the environment, `Configure` fails
(via the spec-modelled authorizer construction). -/
theorem Configure_error_no_material (env : Env) (cfg : AzurexProviderModel)
    (fs : String → Option String) (az : AzIdentity)
    (h1 : env.armClientSecret = "") (h2 : env.armClientCertificateFile = "")
    (h3 : env.azureFederatedTokenFile = "") :
    Configure env cfg fs az = Except.error "unable to configure credential" := by
  simp only [Configure, h1, h2, h3]
  rfl

/-- With an unreadable certificate file, `Configure` fails. -/
theorem Configure_error_unreadable_cert (env : Env) (cfg : AzurexProviderModel)
    (fs : String → Option String) (az : AzIdentity)
    (h1 : env.armClientSecret = "") (hc : env.armClientCertificateFile ≠ "")
    (hfs : fs env.armClientCertificateFile = none) :
    Configure env cfg fs az = Except.error "unable to configure credential" := by
  simp [Configure, h1, hc, hfs]

/-- With an unreadable federated-token file, `Configure` fails. -/
theorem Configure_error_unreadable_token (env : Env) (cfg : AzurexProviderModel)
    (fs : String → Option String) (az : AzIdentity)
    (h1 : env.armClientSecret = "") (h2 : env.armClientCertificateFile = "")
    (ht : env.azureFederatedTokenFile ≠ "")
    (hfs : fs env.azureFederatedTokenFile = none) :
    Configure env cfg fs az = Except.error "unable to configure credential" := by
  simp [Configure, h1, h2, ht, hfs]

/-! ### Claim theorems -/

/-- C1 (counterexample): the claim that every one of `subscription_id`,
`tenant_id`, `client_id`, `client_secret` takes its configured value unless
the matching `ARM_*` environment variable is non-empty is false: with
`ARM_CLIENT_ID` empty and `client_id` configured as `configured-client-id`,
`Configure` succeeds (client-secret branch) with an empty client ID — the
configured `client_id` (and likewise `client_secret`) is never read. -/
theorem claim_C1_counterexample : ¬ claimC1Property envC1 cfgC1 fsNone azAllOk :=
  fun h => absurd (h rC1 rfl) (by decide)

/-- C1 (amended): `subscription_id` and `tenant_id` take the configured
value unless `ARM_SUBSCRIPTION_ID` / `ARM_TENANT_ID` is non-empty; but
`client_id` is always taken from `ARM_CLIENT_ID` and `client_secret` always
from `ARM_CLIENT_SECRET` (empty when that variable is unset) — the
configured `client_id` and `client_secret` are ignored. -/
theorem claim_C1_env_overrides (env : Env) (cfg : AzurexProviderModel)
    (fs : String → Option String) (az : AzIdentity) (r : AzurexContext × Credentials)
    (h : Configure env cfg fs az = Except.ok r) :
    r.1.subscriptionID =
      (if env.armSubscriptionID != "" then env.armSubscriptionID else cfg.subscriptionID) ∧
    r.2.tenantID = (if env.armTenantID != "" then env.armTenantID else cfg.tenantID) ∧
    r.2.clientID = env.armClientID ∧
    r.2.clientSecret = (if env.armClientSecret != "" then env.armClientSecret else "") := by
  obtain ⟨h1, h2, h3, h4, -⟩ := Configure_ok_spec env cfg fs az r h
  exact ⟨by simpa [resolveProviderModel] using h1, by simpa [resolveProviderModel] using h2,
    h3, h4⟩

/-- C1 (witness): the amended theorem applied at a concrete input. -/
theorem claim_C1_env_overrides_witness :
    rC1.1.subscriptionID =
      (if envC1.armSubscriptionID != "" then envC1.armSubscriptionID
       else cfgC1.subscriptionID) ∧
    rC1.2.tenantID =
      (if envC1.armTenantID != "" then envC1.armTenantID else cfgC1.tenantID) ∧
    rC1.2.clientID = envC1.armClientID ∧
    rC1.2.clientSecret =
      (if envC1.armClientSecret != "" then envC1.armClientSecret else "") :=
  claim_C1_env_overrides envC1 cfgC1 fsNone azAllOk rC1 rfl

/-- C2: on every environment, configuration, filesystem and azidentity
behaviour, a successful `Configure` carries a token credential; when no
recognized authentication material is present, or the referenced
certificate / federated-token file is unreadable, `Configure` fails with a
configuration error (the authorizer construction is modelled from the
spec, being external library code). -/
theorem claim_C2_credential_or_config_error (env : Env) (cfg : AzurexProviderModel)
    (fs : String → Option String) (az : AzIdentity) :
    (∀ r, Configure env cfg fs az = Except.ok r → r.1.identityCreds.isSome = true) ∧
    (env.armClientSecret = "" → env.armClientCertificateFile = "" →
      env.azureFederatedTokenFile = "" →
      ∃ e, Configure env cfg fs az = Except.error e) ∧
    (env.armClientSecret = "" → env.armClientCertificateFile ≠ "" →
      fs env.armClientCertificateFile = none →
      ∃ e, Configure env cfg fs az = Except.error e) ∧
    (env.armClientSecret = "" → env.armClientCertificateFile = "" →
      env.azureFederatedTokenFile ≠ "" → fs env.azureFederatedTokenFile = none →
      ∃ e, Configure env cfg fs az = Except.error e) := by
  refine ⟨?_, ?_, ?_, ?_⟩
  · intro r h
    obtain ⟨-, -, -, -, hcase⟩ := Configure_ok_spec env cfg fs az r h
    rcases hcase with ⟨-, hc⟩ | ⟨-, -, c, -, hc⟩ | ⟨-, -, -, hc⟩ <;> simp [hc]
  · intro h1 h2 h3
    exact ⟨_, Configure_error_no_material env cfg fs az h1 h2 h3⟩
  · intro h1 hc hfs
    exact ⟨_, Configure_error_unreadable_cert env cfg fs az h1 hc hfs⟩
  · intro h1 h2 ht hfs
    exact ⟨_, Configure_error_unreadable_token env cfg fs az h1 h2 ht hfs⟩

/-- C2 (witness): at a concrete environment with no authentication material
and a failing filesystem, the hypotheses of each conjunct are discharged. -/
theorem claim_C2_credential_or_config_error_witness :
    (∃ e, Configure envEmpty cfgC1 fsNone azAllOk = Except.error e) ∧
    (∃ e, Configure envCert cfgC1 fsNone azAllOk = Except.error e) ∧
    (∀ r, Configure envC1 cfgC1 fsNone azAllOk = Except.ok r →
      r.1.identityCreds.isSome = true) :=
  ⟨(claim_C2_credential_or_config_error envEmpty cfgC1 fsNone azAllOk).2.1 rfl rfl rfl,
   (claim_C2_credential_or_config_error envCert cfgC1 fsNone azAllOk).2.2.1 rfl
     (by decide) rfl,
   (claim_C2_credential_or_config_error envC1 cfgC1 fsNone azAllOk).1⟩

/-- C3: `Configure` picks the authentication mode by first-match priority
on the environment: a non-empty `ARM_CLIENT_SECRET` yields a client-secret
credential; otherwise a non-empty `ARM_CLIENT_CERTIFICATE_FILE` yields a
client-certificate credential (built from the file contents); otherwise a
non-empty `AZURE_FEDERATED_TOKEN_FILE` yields a workload-identity
credential. -/
theorem claim_C3_auth_mode_priority (env : Env) (cfg : AzurexProviderModel)
    (fs : String → Option String) (az : AzIdentity) (r : AzurexContext × Credentials)
    (h : Configure env cfg fs az = Except.ok r) :
    (env.armClientSecret ≠ "" →
      r.1.identityCreds = some (TokenCredential.clientSecret
        (resolveProviderModel env cfg).tenantID env.armClientID env.armClientSecret)) ∧
    (env.armClientSecret = "" → env.armClientCertificateFile ≠ "" →
      ∃ certData, fs env.armClientCertificateFile = some certData ∧
        r.1.identityCreds = some (TokenCredential.clientCertificate
          (resolveProviderModel env cfg).tenantID env.armClientID certData)) ∧
    (env.armClientSecret = "" → env.armClientCertificateFile = "" →
      env.azureFederatedTokenFile ≠ "" →
      r.1.identityCreds = some (TokenCredential.workloadIdentity
        (resolveProviderModel env cfg).tenantID env.azureClientID
        env.azureFederatedTokenFile)) := by
  obtain ⟨-, -, -, -, hcase⟩ := Configure_ok_spec env cfg fs az r h
  rcases hcase with ⟨hs, hc⟩ | ⟨hs, hcf, c, hfs, hc⟩ | ⟨hs, hcf, ht, hc⟩
  · exact ⟨fun _ => hc, fun h1 _ => absurd h1 hs, fun h1 _ _ => absurd h1 hs⟩
  · exact ⟨fun hne => absurd hs hne, fun _ _ => ⟨c, hfs, hc⟩,
      fun _ h2 _ => absurd h2 hcf⟩
  · exact ⟨fun hne => absurd hs hne, fun _ h2 => absurd hcf h2, fun _ _ _ => hc⟩

/-- C3 (witness): at the concrete client-secret environment. -/
theorem claim_C3_auth_mode_priority_witness :
    envC1.armClientSecret ≠ "" ∧
    rC1.1.identityCreds = some (TokenCredential.clientSecret
      (resolveProviderModel envC1 cfgC1).tenantID envC1.armClientID
      envC1.armClientSecret) :=
  ⟨by decide,
   (claim_C3_auth_mode_priority envC1 cfgC1 fsNone azAllOk rC1 rfl).1 (by decide)⟩

/-- C4: the resource schema does not declare the `subscription_id`
attribute that `ImportState` writes the import identifier to, so the
framework rejects every import of this resource — the code contradicts its
own import wiring (a bug, not a spec error). -/
theorem claim_C4_import_targets_missing_attribute :
    importStateAttributePath ∉ subscriptionTagsSchemaAttributes := by decide

/-- C5: when both reads succeed, `Read` records `inherit_tags = true` and
the server-reported `preferContainerTags` when the settings response has a
non-empty identifier, and records `inherit_tags = false` leaving
`prefer_containers` at its prior-state value when the identifier is
empty. -/
theorem claim_C5_read_inheritance (subscriptionID endpoint : String) (clients : Clients)
    (data : SubscriptionTagsResourceModel) (tr : TagsResponse)
    (inh : TagInheritanceResponse)
    (h1 : clients.getAtScope (SubscriptionTagsResource.scopeOf subscriptionID) =
        Except.ok tr)
    (h2 : GetTagInheritance endpoint clients.pipeline = Except.ok inh) :
    ∃ d, (SubscriptionTagsResource.Read subscriptionID endpoint clients data).2 =
        Except.ok d ∧
      (inh.id ≠ "" → d.inheritTags = true ∧
        d.preferContainers = inh.properties.preferContainerTags) ∧
      (inh.id = "" → d.inheritTags = false ∧
        d.preferContainers = data.preferContainers) := by
  by_cases hid : inh.id = ""
  · refine ⟨{ data with
                tags := SubscriptionTagsResource.tfTagsOfResponse tr,
                inheritTags := false },
      ?_, fun hne => absurd hid hne, fun _ => ⟨rfl, rfl⟩⟩
    simp [SubscriptionTagsResource.Read, h1, h2, hid]
  · refine ⟨{ data with
                tags := SubscriptionTagsResource.tfTagsOfResponse tr,
                inheritTags := true,
                preferContainers := inh.properties.preferContainerTags },
      ?_, fun _ => ⟨rfl, rfl⟩, fun heq => absurd heq hid⟩
    simp [SubscriptionTagsResource.Read, h1, h2, hid]

/-- C5 (witness): reading against concrete clients whose settings endpoint
reports a non-empty identifier. -/
theorem claim_C5_read_inheritance_witness :
    ∃ d, (SubscriptionTagsResource.Read "sub" "ep" sampleClients stateOff).2 =
        Except.ok d ∧
      (sampleInh.id ≠ "" → d.inheritTags = true ∧
        d.preferContainers = sampleInh.properties.preferContainerTags) ∧
      (sampleInh.id = "" → d.inheritTags = false ∧
        d.preferContainers = stateOff.preferContainers) :=
  claim_C5_read_inheritance "sub" "ep" sampleClients stateOff
    { properties := some { tags := some [("tag1", some "value1"), ("tag2", none)] } }
    sampleInh rfl rfl

/-- C6: when the tag application succeeds, an `Update` from
`inherit_tags = true` to `false` issues exactly one inheritance-related
call, the disable; and an `Update` from `false` to `false` issues no
inheritance-related call at all. -/
theorem claim_C6_update_inheritance_calls (subscriptionID endpoint : String)
    (clients : Clients) (data oldData : SubscriptionTagsResourceModel)
    (happly : clients.createOrUpdateAtScope
        (SubscriptionTagsResource.scopeOf subscriptionID) data.tags = Except.ok ()) :
    (oldData.inheritTags = true → data.inheritTags = false →
      (SubscriptionTagsResource.Update subscriptionID endpoint clients data oldData).1.filter
        ApiCall.isInheritanceCall = [ApiCall.disableTagInheritance]) ∧
    (oldData.inheritTags = false → data.inheritTags = false →
      (SubscriptionTagsResource.Update subscriptionID endpoint clients data oldData).1.filter
        ApiCall.isInheritanceCall = []) := by
  constructor
  · intro hold hnew
    cases hd : DisableTagInheritance endpoint clients.pipeline <;>
      simp [SubscriptionTagsResource.Update, SubscriptionTagsResource.applyTags, happly,
        hold, hnew, hd, ApiCall.isInheritanceCall]
  · intro hold hnew
    simp [SubscriptionTagsResource.Update, SubscriptionTagsResource.applyTags, happly,
      hold, hnew, ApiCall.isInheritanceCall]

/-- C6 (witness): updating from the concrete inheritance-on state to the
inheritance-off state against concrete clients. -/
theorem claim_C6_update_inheritance_calls_witness :
    (stateOn.inheritTags = true → stateOff.inheritTags = false →
      (SubscriptionTagsResource.Update "sub" "ep" sampleClients stateOff stateOn).1.filter
        ApiCall.isInheritanceCall = [ApiCall.disableTagInheritance]) ∧
    (stateOn.inheritTags = false → stateOff.inheritTags = false →
      (SubscriptionTagsResource.Update "sub" "ep" sampleClients stateOff stateOn).1.filter
        ApiCall.isInheritanceCall = []) :=
  claim_C6_update_inheritance_calls "sub" "ep" sampleClients stateOff stateOn rfl

/-- C7: when the (possible) tag-clearing call succeeds, `Delete` issues no
tag-modifying call when `ondelete_remove_tags` is false, issues the
empty-map `CreateOrUpdateAtScope` call (clearing all tags) when it is
true, and calls `DisableTagInheritance` iff both
`ondelete_remove_inherit_tags` and the state's `inherit_tags` hold. -/
theorem claim_C7_delete_effects (subscriptionID endpoint : String) (clients : Clients)
    (data : SubscriptionTagsResourceModel)
    (happly : clients.createOrUpdateAtScope
        (SubscriptionTagsResource.scopeOf subscriptionID) [] = Except.ok ()) :
    (data.removeTags = false →
      (SubscriptionTagsResource.Delete subscriptionID endpoint clients data).1.filter
        ApiCall.isTagModifying = []) ∧
    (data.removeTags = true →
      ApiCall.createOrUpdateAtScope (SubscriptionTagsResource.scopeOf subscriptionID) [] ∈
        (SubscriptionTagsResource.Delete subscriptionID endpoint clients data).1) ∧
    (ApiCall.disableTagInheritance ∈
        (SubscriptionTagsResource.Delete subscriptionID endpoint clients data).1 ↔
      data.remoteInheritTags = true ∧ data.inheritTags = true) := by
  cases hrm : data.removeTags <;> cases hri : data.remoteInheritTags <;>
      cases hit : data.inheritTags <;>
    cases hd : DisableTagInheritance endpoint clients.pipeline <;>
      simp [SubscriptionTagsResource.Delete, SubscriptionTagsResource.deleteInheritanceStep,
        SubscriptionTagsResource.applyTags, happly, hrm, hri, hit, hd,
        ApiCall.isTagModifying, ApiCall.isInheritanceCall]

/-- C7 (witness): deleting the concrete state with both removal flags and
inheritance on, against concrete clients. -/
theorem claim_C7_delete_effects_witness :
    (stateOn.removeTags = false →
      (SubscriptionTagsResource.Delete "sub" "ep" sampleClients stateOn).1.filter
        ApiCall.isTagModifying = []) ∧
    (stateOn.removeTags = true →
      ApiCall.createOrUpdateAtScope (SubscriptionTagsResource.scopeOf "sub") [] ∈
        (SubscriptionTagsResource.Delete "sub" "ep" sampleClients stateOn).1) ∧
    (ApiCall.disableTagInheritance ∈
        (SubscriptionTagsResource.Delete "sub" "ep" sampleClients stateOn).1 ↔
      stateOn.remoteInheritTags = true ∧ stateOn.inheritTags = true) :=
  claim_C7_delete_effects "sub" "ep" sampleClients stateOn rfl

/-- C8: `DisableTagInheritance` is `EnableTagInheritance false`: for every
endpoint and transport they build the same request and handle the response
identically, and that request is the PUT on the fixed taginheritance path
with `api-version=2022-10-01-preview` and the JSON body with kind
`taginheritance` and `preferContainerTags = false`. -/
theorem claim_C8_disable_eq_enable_false (endpoint : String) (pipeline : Pipeline) :
    DisableTagInheritance endpoint pipeline = EnableTagInheritance endpoint pipeline false ∧
    createTagInheritanceRequest endpoint false =
      { method := "PUT"
        url := endpoint ++ settingsUrlPath
        query := [("api-version", "2022-10-01-preview")]
        headerAccept := ["application/json"]
        body := some { kind := "taginheritance"
                       properties := { preferContainerTags := false } } } :=
  ⟨rfl, rfl⟩

/-- C9: the tag mapping `Read` builds from an Azure tags response contains
exactly the pairs whose value pointer is non-nil, dereferenced; nil-valued
tags are skipped (the conversion is total, so they never cause a
failure). -/
theorem claim_C9_tags_conversion (ts : List (String × Option String)) (k v : String) :
    (k, v) ∈ SubscriptionTagsResource.tfTagsOfResponse
        { properties := some { tags := some ts } } ↔
      (k, some v) ∈ ts := by
  simp only [SubscriptionTagsResource.tfTagsOfResponse,
    SubscriptionTagsResource.convertAzureTags, List.mem_filterMap]
  constructor
  · rintro ⟨⟨a, b⟩, hmem, hf⟩
    rw [Option.map_eq_some'] at hf
    obtain ⟨w, hb, heq⟩ := hf
    cases heq
    subst hb
    exact hmem
  · intro hmem
    exact ⟨(k, some v), hmem, rfl⟩

/-- C10: in both `Create` and `Update`, when the tag application succeeds,
the plan wants inheritance, and `EnableTagInheritance` succeeds but answers
with an empty identifier, the recorded state is exactly the planned one
(declared `inherit_tags` and `prefer_containers` kept); the server-reported
`preferContainerTags` is copied into state only on a non-empty
identifier. -/
theorem claim_C10_enable_empty_id (subscriptionID endpoint : String) (clients : Clients)
    (data oldData : SubscriptionTagsResourceModel) (inh : TagInheritanceResponse)
    (hinherit : data.inheritTags = true)
    (happly : clients.createOrUpdateAtScope
        (SubscriptionTagsResource.scopeOf subscriptionID) data.tags = Except.ok ())
    (henable : EnableTagInheritance endpoint clients.pipeline data.preferContainers =
        Except.ok inh) :
    (inh.id = "" →
      (SubscriptionTagsResource.Create subscriptionID endpoint clients data).2 =
        Except.ok data ∧
      (SubscriptionTagsResource.Update subscriptionID endpoint clients data oldData).2 =
        Except.ok data) ∧
    (inh.id ≠ "" →
      (SubscriptionTagsResource.Create subscriptionID endpoint clients data).2 =
        Except.ok { data with inheritTags := true
                              preferContainers := inh.properties.preferContainerTags } ∧
      (SubscriptionTagsResource.Update subscriptionID endpoint clients data oldData).2 =
        Except.ok { data with inheritTags := true
                              preferContainers := inh.properties.preferContainerTags }) := by
  constructor <;> intro hid <;>
    exact ⟨by simp [SubscriptionTagsResource.Create, SubscriptionTagsResource.applyTags,
        happly, hinherit, henable, hid],
      by simp [SubscriptionTagsResource.Update, SubscriptionTagsResource.applyTags,
        happly, hinherit, henable, hid]⟩

/-- C10 (witness): creating and updating the concrete inheritance-on state
against clients whose settings endpoint answers with an empty
identifier. -/
theorem claim_C10_enable_empty_id_witness :
    (emptyIdInh.id = "" →
      (SubscriptionTagsResource.Create "sub" "ep" emptyIdClients stateOn).2 =
        Except.ok stateOn ∧
      (SubscriptionTagsResource.Update "sub" "ep" emptyIdClients stateOn stateOff).2 =
        Except.ok stateOn) ∧
    (emptyIdInh.id ≠ "" →
      (SubscriptionTagsResource.Create "sub" "ep" emptyIdClients stateOn).2 =
        Except.ok { stateOn with inheritTags := true
                                 preferContainers := emptyIdInh.properties.preferContainerTags } ∧
      (SubscriptionTagsResource.Update "sub" "ep" emptyIdClients stateOn stateOff).2 =
        Except.ok { stateOn with inheritTags := true
                                 preferContainers := emptyIdInh.properties.preferContainerTags }) :=
  claim_C10_enable_empty_id "sub" "ep" emptyIdClients stateOn stateOff emptyIdInh
    rfl rfl rfl

end Azurex
